import Mathlib

/-
Verification of the NestJS Books API core: the generic repository layer
(BaseService), the per-user book scoping layer (BooksService / BooksController)
and the identity service (AuthService), shallowly embedded as pure functions
over in-memory stores (lists of rows).
-/

set_option autoImplicit false

namespace BooksApi

/-- Model of a JavaScript error value as it travels through the service layers.
`message` is the Error message, `code` and `constraint` are the structured
fields a Postgres driver error carries (for example code 23505 on a unique
constraint violation), and `isError` records whether the thrown value is an
`Error` instance (BaseService.handleError tests this with instanceof). -/
structure JsError where
  message : String
  code : Option String
  constraintName : Option String
  isError : Bool
deriving Repr, DecidableEq

/-- Embeds the JS expression new Error(msg): a plain error with no structured
driver fields. -/
def jsNewError (msg : String) : JsError :=
  { message := msg, code := none, constraintName := none, isError := true }

/-- The raw Postgres unique-constraint-violation error the driver raises when
an insert hits a unique index: carries code 23505 and the constraint name. -/
def pgUniqueViolation (constraintName : String) : JsError :=
  { message := "duplicate key value violates unique constraint " ++ constraintName,
    code := some "23505",
    constraintName := some constraintName,
    isError := true }

/-- BaseService.handleError (src/modules/BaseService.ts lines 283-286):
builds a brand new plain Error whose message is
"Service error in operation: original message" (or "Unknown error" when the
caught value is not an Error instance) and throws it. The new Error carries
none of the structured fields of the original. -/
def handleError (operation : String) (error : JsError) : JsError :=
  jsNewError ("Service error in " ++ operation ++ ": " ++
    (if error.isError then error.message else "Unknown error"))

/-! ### Pagination (BaseService.getPaginated) -/

/-- Sort direction, as in PaginationOptions.sortOrder. -/
inductive SortOrder where
  | asc
  | desc
deriving Repr, DecidableEq

/-- PaginationOptions (BaseService.ts lines 13-18). In the source `sortBy` is a
dynamic column name; the embedding resolves it to an integer-valued column
accessor on the entity, `none` when the option is absent. -/
structure PaginationOptions (α : Type) where
  page : Int
  limit : Int
  sortBy : Option (α → Int)
  sortOrder : Option SortOrder

/-- The pagination block of PaginatedResult (BaseService.ts lines 20-30). -/
structure PaginationMeta where
  currentPage : Int
  totalPages : Int
  totalItems : Int
  itemsPerPage : Int
  hasNextPage : Bool
  hasPreviousPage : Bool
deriving Repr, DecidableEq

/-- PaginatedResult (BaseService.ts lines 20-30). -/
structure PaginatedResult (α : Type) where
  data : List α
  pagination : PaginationMeta

/-- The ORDER BY step of repository.findAndCount: when an order option is
present the rows are sorted by the named column in the requested direction
(`sortOrder || 'ASC'`); when absent no ORDER BY is emitted and the rows come
back in the store's underlying order. -/
def applyOrder {α : Type} (key : Option (α → Int)) (ord : Option SortOrder)
    (rows : List α) : List α :=
  match key with
  | none => rows
  | some k =>
    match ord.getD SortOrder.asc with
    | SortOrder.asc => rows.mergeSort (fun a b => decide (k a ≤ k b))
    | SortOrder.desc => rows.mergeSort (fun a b => decide (k b ≤ k a))

/-- repository.findAndCount with take/skip: returns the requested window of the
ordered rows together with the total row count (the count ignores take/skip). -/
def findAndCount {α : Type} (key : Option (α → Int)) (ord : Option SortOrder)
    (takeN skipN : Nat) (rows : List α) : List α × Nat :=
  (((applyOrder key ord rows).drop skipN).take takeN, rows.length)

/-- BaseService.getPaginated (BaseService.ts lines 131-172) over a store that
already reflects the where-filter of the findOptions argument. The second
component counts how many storage calls were performed, so that rejection
before any storage access is expressible. Math.ceil(count / limit) on
non-negative integers with limit >= 1 is embedded as (count + limit - 1) / limit.
Validation failures are plain thrown Errors, re-thrown through handleError. -/
def getPaginated {α : Type} (opts : PaginationOptions α) (store : List α) :
    Except JsError (PaginatedResult α) × Nat :=
  if opts.page < 1 then
    (Except.error (handleError "getPaginated" (jsNewError "Page must be greater than 0")), 0)
  else if opts.limit < 1 ∨ opts.limit > 100 then
    (Except.error (handleError "getPaginated" (jsNewError "Limit must be between 1 and 100")), 0)
  else
    let offset := (opts.page - 1) * opts.limit
    let fc := findAndCount opts.sortBy opts.sortOrder opts.limit.toNat offset.toNat store
    let count := fc.2
    let totalPages : Int := ((count + opts.limit.toNat - 1) / opts.limit.toNat : Nat)
    (Except.ok
      { data := fc.1,
        pagination :=
          { currentPage := opts.page,
            totalPages := totalPages,
            totalItems := (count : Int),
            itemsPerPage := opts.limit,
            hasNextPage := decide (opts.page < totalPages),
            hasPreviousPage := decide (opts.page > 1) } }, 1)

/-! ### Entities -/

/-- The books table row (src/entities/book.entity.ts): unique index on
(userId, title), owner column userId. -/
structure Book where
  id : Nat
  title : String
  author : String
  description : Option String
  year : Option Nat
  coverImageUrl : Option String
  userId : Nat
deriving Repr, DecidableEq

/-- The users table row (src/entities/user.entity.ts): unique index on email. -/
structure UserRow where
  id : Nat
  email : String
  password : String
deriving Repr, DecidableEq

/-! ### BooksService (src/modules/books: the resource-scoping layer) -/

/-- ASCII lowercasing of one character, embedding what
String.prototype.toLowerCase and the ILIKE case fold do on the ASCII range. -/
def charLower (c : Char) : Char :=
  if 65 ≤ c.toNat ∧ c.toNat ≤ 90 then Char.ofNat (c.toNat + 32) else c

/-- ASCII lowercasing of a string, embedding email.toLowerCase(). -/
def strLower (s : String) : String :=
  ⟨s.data.map charLower⟩

/-- Executable test that the first list starts the second. -/
def charsStart : List Char → List Char → Bool
  | [], _ => true
  | _ :: _, [] => false
  | a :: as, b :: bs => a == b && charsStart as bs

/-- Executable test that the first list occurs inside the second. -/
def charsInside : List Char → List Char → Bool
  | needle, [] => charsStart needle []
  | needle, hay@(_ :: tl) => charsStart needle hay || charsInside needle tl

/-- Case-sensitive substring test, embedding JS String.prototype.includes. -/
def strIncludes (s sub : String) : Bool :=
  charsInside sub.data s.data

/-- Case-insensitive substring test, embedding the SQL predicate
column ILIKE percent-term-percent. -/
def ilikeContains (column term : String) : Bool :=
  charsInside (strLower term).data (strLower column).data

/-- BooksService.findByIdAndUser: findOneBy with id and userId in one query,
returning the first row matching both columns. -/
def findByIdAndUser (store : List Book) (bookId userId : Nat) : Option Book :=
  store.find? (fun b => b.id == bookId && b.userId == userId)

/-- BooksService.searchByTitle: title ILIKE search, with no owner filter. -/
def searchByTitle (store : List Book) (title : String) : List Book :=
  store.filter (fun b => ilikeContains b.title title)

/-- BooksService.searchByAuthor: author ILIKE search, with no owner filter. -/
def searchByAuthor (store : List Book) (author : String) : List Book :=
  store.filter (fun b => ilikeContains b.author author)

/-- BooksService.findByAuthor: findByField on the author column (exact match),
with no owner filter. -/
def findByAuthor (store : List Book) (author : String) : List Book :=
  store.filter (fun b => b.author == author)

/-- BooksService.searchByTitleForUser: userId equality AND
(title ILIKE term OR author ILIKE term). -/
def searchByTitleForUser (store : List Book) (userId : Nat) (searchTerm : String) :
    List Book :=
  store.filter (fun b =>
    b.userId == userId &&
      (ilikeContains b.title searchTerm || ilikeContains b.author searchTerm))

/-- BooksService.findByAuthorForUser: userId equality AND author ILIKE term. -/
def findByAuthorForUser (store : List Book) (userId : Nat) (author : String) :
    List Book :=
  store.filter (fun b => b.userId == userId && ilikeContains b.author author)

/-- BooksService.titleExistsForUser: count where userId and title match exactly,
compared against zero. -/
def titleExistsForUser (store : List Book) (userId : Nat) (title : String) : Bool :=
  0 < (store.filter (fun b => b.userId == userId && b.title == title)).length

/-- BooksService.getPaginatedByUser: delegates to getPaginated with an injected
where userId filter. -/
def getPaginatedByUser (store : List Book) (userId : Nat)
    (opts : PaginationOptions Book) : Except JsError (PaginatedResult Book) × Nat :=
  getPaginated opts (store.filter (fun b => b.userId == userId))

/-! ### BooksController create and update flows -/

/-- An HTTP-level failure as produced by throwErrorResponse / HttpException:
a status code and a message. -/
structure ApiError where
  status : Nat
  message : String
deriving Repr, DecidableEq

/-- CreateBookDto: title and author required, description/year optional, and an
optional userId property a client may send (the controller overrides it). -/
structure CreateBookDto where
  title : String
  author : String
  description : Option String
  year : Option Nat
  userId : Option Nat
deriving Repr, DecidableEq

/-- UpdateBookDto fields plus a userId entry representing an owner id a client
may smuggle into the raw payload; the controller strips it before updating. -/
structure UpdateBookDto where
  title : Option String
  author : Option String
  description : Option String
  year : Option Nat
  coverImageUrl : Option String
  userId : Option Nat
deriving Repr, DecidableEq

/-- The partial-update object handed to BaseService.update by the update flow:
note it has no userId field (the controller destructured it away). -/
structure BookPatch where
  title : Option String
  author : Option String
  description : Option String
  year : Option Nat
  coverImageUrl : Option String
deriving Repr, DecidableEq

/-- The destructuring const (userId, ...updateData) = updateBookDto in
BooksController.updateBook: the update object handed to the repository is the
payload minus its userId entry. -/
def stripUserId (dto : UpdateBookDto) : BookPatch :=
  { title := dto.title, author := dto.author, description := dto.description,
    year := dto.year, coverImageUrl := dto.coverImageUrl }

/-- TypeORM partial update of one row: each column present in the patch is
overwritten, every absent column keeps its stored value. -/
def applyPatch (p : BookPatch) (b : Book) : Book :=
  { b with
    title := p.title.getD b.title,
    author := p.author.getD b.author,
    description := match p.description with | some d => some d | none => b.description,
    year := match p.year with | some y => some y | none => b.year,
    coverImageUrl := match p.coverImageUrl with | some u => some u | none => b.coverImageUrl }

/-- repository.update(id, patch): patches every row whose id matches. -/
def booksUpdate (store : List Book) (bookId : Nat) (p : BookPatch) : List Book :=
  store.map (fun b => if b.id == bookId then applyPatch p b else b)

/-- Fresh primary key for an insert into the books store. -/
def nextBookId (store : List Book) : Nat :=
  store.foldr (fun b acc => max b.id acc) 0 + 1

/-- repository.save on the books table: the relational store enforces the
unique index on (userId, title) at insert time, raising the raw Postgres
unique-violation error; otherwise the row is appended. -/
def booksSave (store : List Book) (b : Book) : Except JsError (Book × List Book) :=
  if store.any (fun x => x.userId == b.userId && x.title == b.title) then
    Except.error (pgUniqueViolation "UQ_books_userId_title")
  else
    Except.ok (b, store ++ [b])

/-- BooksService.create, i.e. BaseService.create (BaseService.ts lines 66-73):
save, with any storage failure re-thrown through handleError. -/
def baseCreateBook (store : List Book) (b : Book) : Except JsError (Book × List Book) :=
  match booksSave store b with
  | Except.ok r => Except.ok r
  | Except.error e => Except.error (handleError "create" e)

/-- The conflict message of BooksController, naming the offending title. -/
def duplicateTitleMessage (title : String) : String :=
  "You already have a book with the title \"" ++ title ++
    "\". Please use a different title."

/-- BooksController.createBook (auth.controller.ts source, lines 384-445),
without the optional cover-image upload. To make the pre-check/insert race
expressible, the store is sampled twice: storeAtCheck is what
titleExistsForUser sees, storeAtInsert is what save sees; a sequential
(race-free) run has storeAtCheck = storeAtInsert. The catch block translates
an error to 409 only when it carries code 23505 and a constraint name
containing both userId and title; any other non-HTTP error becomes a 500. -/
def createBook (storeAtCheck storeAtInsert : List Book) (userId : Nat)
    (dto : CreateBookDto) : Except ApiError (Book × List Book) :=
  if titleExistsForUser storeAtCheck userId dto.title then
    Except.error ⟨409, duplicateTitleMessage dto.title⟩
  else
    let book : Book :=
      { id := nextBookId storeAtInsert, title := dto.title, author := dto.author,
        description := dto.description, year := dto.year, coverImageUrl := none,
        userId := userId }
    match baseCreateBook storeAtInsert book with
    | Except.ok r => Except.ok r
    | Except.error err =>
      if err.code == some "23505" &&
          (match err.constraintName with
           | some c => strIncludes c "userId" && strIncludes c "title"
           | none => false) then
        Except.error ⟨409, duplicateTitleMessage dto.title⟩
      else
        Except.error ⟨500, err.message⟩

/-- BooksController.updateBook (auth.controller.ts source, lines 466-508):
look up by id and owner, reject a duplicate new title, strip userId from the
payload, apply the partial update, and re-fetch. Returns the HTTP outcome
together with the store after the call. -/
def updateBook (store : List Book) (userId bookId : Nat) (dto : UpdateBookDto) :
    Except ApiError (Option Book) × List Book :=
  match findByIdAndUser store bookId userId with
  | none => (Except.error ⟨404, "Book not found"⟩, store)
  | some existingBook =>
    let titleConflict :=
      match dto.title with
      | some t => t != existingBook.title && titleExistsForUser store userId t
      | none => false
    if titleConflict then
      (Except.error ⟨409, duplicateTitleMessage (dto.title.getD "")⟩, store)
    else
      let store2 := booksUpdate store bookId (stripUserId dto)
      (Except.ok (findByIdAndUser store2 bookId userId), store2)

/-! ### AuthService (src/modules/auth/auth.service.ts) -/

/-- RegisterDto: a validated email and password pair. -/
structure RegisterDto where
  email : String
  password : String
deriving Repr, DecidableEq

/-- LoginDto: the login credential pair. -/
structure LoginDto where
  email : String
  password : String
deriving Repr, DecidableEq

/-- The user part of AuthResponse. -/
structure AuthUser where
  id : Nat
  email : String
deriving Repr, DecidableEq

/-- AuthResponse: the public account view plus the signed access token. -/
structure AuthResponse where
  user : AuthUser
  accessToken : String
deriving Repr, DecidableEq

/-- The NestJS HTTP exceptions AuthService throws. -/
inductive AuthError where
  | conflict (msg : String)
  | unauthorized (msg : String)
  | badRequest (msg : String)
deriving Repr, DecidableEq

/-- BaseService.exists on the email column: count where email matches,
compared against zero. -/
def usersExists (store : List UserRow) (email : String) : Bool :=
  0 < (store.filter (fun u => u.email == email)).length

/-- Fresh primary key for an insert into the users store. -/
def nextUserId (store : List UserRow) : Nat :=
  store.foldr (fun u acc => max u.id acc) 0 + 1

/-- repository.save on the users table: the relational store enforces the
unique index on email at insert time, raising the raw Postgres
unique-violation error; otherwise the row is appended. -/
def usersSave (store : List UserRow) (u : UserRow) :
    Except JsError (UserRow × List UserRow) :=
  if store.any (fun x => x.email == u.email) then
    Except.error (pgUniqueViolation "UQ_users_email")
  else
    Except.ok (u, store ++ [u])

/-- AuthService inherits BaseService.create: save, with any storage failure
re-thrown through handleError. -/
def baseCreateUser (store : List UserRow) (email hashed : String) :
    Except JsError (UserRow × List UserRow) :=
  match usersSave store { id := nextUserId store, email := email, password := hashed } with
  | Except.ok r => Except.ok r
  | Except.error e => Except.error (handleError "create" e)

/-- AuthService.register (auth.service.ts lines 40-82). The bcrypt hash and the
JWT signer are external collaborators passed as functions. To make the
exists/save race expressible the store is sampled twice: storeAtCheck is what
the exists pre-check sees, storeAtInsert is what save sees; a sequential run
has storeAtCheck = storeAtInsert. The catch block maps an error carrying
code 23505 to ConflictException and everything else to BadRequestException. -/
def registerRaced (hash : String → String) (sign : Nat → String → String)
    (storeAtCheck storeAtInsert : List UserRow) (dto : RegisterDto) :
    Except AuthError (AuthResponse × List UserRow) :=
  let emailLower := strLower dto.email
  if usersExists storeAtCheck emailLower then
    Except.error (AuthError.conflict "User with this email already exists")
  else
    let hashed := hash dto.password
    match baseCreateUser storeAtInsert emailLower hashed with
    | Except.ok (saved, store2) =>
      Except.ok
        ({ user := { id := saved.id, email := saved.email },
           accessToken := sign saved.id saved.email }, store2)
    | Except.error wrapped =>
      if wrapped.code == some "23505" then
        Except.error (AuthError.conflict "User with this email already exists")
      else
        Except.error (AuthError.badRequest "Failed to create user")

/-- AuthService.register in a sequential (race-free) run. -/
def register (hash : String → String) (sign : Nat → String → String)
    (store : List UserRow) (dto : RegisterDto) :
    Except AuthError (AuthResponse × List UserRow) :=
  registerRaced hash sign store store dto

/-- AuthService.login (auth.service.ts lines 84-125): find by lowercased email,
re-fetch the row with the password column selected, verify the credential with
bcrypt.compare, and answer the one generic UnauthorizedException on any
failure. The bcrypt comparison is the external collaborator verify. -/
def login (verify : String → String → Bool) (sign : Nat → String → String)
    (store : List UserRow) (dto : LoginDto) : Except AuthError AuthResponse :=
  let emailLower := strLower dto.email
  let users := store.filter (fun u => u.email == emailLower)
  if users.isEmpty then
    Except.error (AuthError.unauthorized "Invalid email or password")
  else
    match store.find? (fun u => u.email == emailLower) with
    | none => Except.error (AuthError.unauthorized "Invalid email or password")
    | some u =>
      if verify dto.password u.password then
        Except.ok
          { user := { id := u.id, email := u.email },
            accessToken := sign u.id u.email }
      else
        Except.error (AuthError.unauthorized "Invalid email or password")

/-! ### Theorems -/

/-- Ceiling division in the add-pred-div form used by the pagination model
dominates when multiplied back by a positive divisor. -/
theorem le_addPredDiv_mul (n l : Nat) (hl : 0 < l) : n ≤ ((n + l - 1) / l) * l := by
  have h := le_smul_ceilDiv hl (b := n)
  rw [smul_eq_mul] at h
  calc n ≤ l * (n ⌈/⌉ l) := h
    _ = ((n + l - 1) / l) * l := by rw [Nat.ceilDiv_eq_add_pred_div, Nat.mul_comm]

/-- Ceiling division in the add-pred-div form is the least multiplier covering
the numerator. -/
theorem addPredDiv_le_of_le_mul (n l m : Nat) (hl : 0 < l) (h : n ≤ m * l) :
    (n + l - 1) / l ≤ m := by
  rw [← Nat.ceilDiv_eq_add_pred_div]
  refine (ceilDiv_le_iff_le_mul hl).2 ?_
  rw [Nat.mul_comm]
  exact h

/-- C1: for every valid pagination request (page >= 1 and 1 <= limit <= 100),
getPaginated performs the storage call and returns a result whose totalPages
equals the ceiling of totalItems / limit (stated both through Mathlib's
ceiling division and through its Galois characterisation as the least m with
totalItems <= m * limit), whose items list has length at most limit, whose
hasNextPage equals (currentPage < totalPages), whose hasPreviousPage equals
(currentPage > 1), with currentPage = page and itemsPerPage = limit. -/
theorem getPaginated_valid_contract {α : Type} (opts : PaginationOptions α)
    (store : List α) (hp : 1 ≤ opts.page) (hl1 : 1 ≤ opts.limit)
    (hl2 : opts.limit ≤ 100) :
    ∃ r : PaginatedResult α,
      getPaginated opts store = (Except.ok r, 1) ∧
      r.pagination.currentPage = opts.page ∧
      r.pagination.itemsPerPage = opts.limit ∧
      r.pagination.totalItems = (store.length : Int) ∧
      r.pagination.totalPages = ((store.length ⌈/⌉ opts.limit.toNat : Nat) : Int) ∧
      ((store.length : Int) ≤ r.pagination.totalPages * opts.limit) ∧
      (∀ m : Nat, store.length ≤ m * opts.limit.toNat →
        r.pagination.totalPages ≤ (m : Int)) ∧
      r.data.length ≤ opts.limit.toNat ∧
      r.pagination.hasNextPage =
        decide (r.pagination.currentPage < r.pagination.totalPages) ∧
      r.pagination.hasPreviousPage = decide (1 < r.pagination.currentPage) := by
  have hpage : ¬ opts.page < 1 := by omega
  have hlim : ¬ (opts.limit < 1 ∨ opts.limit > 100) := by omega
  have hl0 : 0 < opts.limit.toNat := by omega
  simp only [getPaginated, findAndCount, if_neg hpage, if_neg hlim]
  refine ⟨_, rfl, rfl, rfl, rfl, ?_, ?_, ?_, ?_, rfl, rfl⟩ <;> dsimp only
  · rw [Nat.ceilDiv_eq_add_pred_div]
  · have h3 : opts.limit = (opts.limit.toNat : Int) := by omega
    rw [h3]
    exact_mod_cast le_addPredDiv_mul store.length opts.limit.toNat hl0
  · intro m hm
    exact_mod_cast addPredDiv_le_of_le_mul store.length opts.limit.toNat m hl0 hm
  · exact List.length_take_le _ _

/-- Witness for C1 at page 1, limit 10 over a one-row store. -/
theorem getPaginated_valid_contract_witness :
    (1 : Int) ≤ 1 ∧ (1 : Int) ≤ 10 ∧ (10 : Int) ≤ 100 ∧
    (∃ r : PaginatedResult Book,
      getPaginated { page := 1, limit := 10, sortBy := none, sortOrder := none }
        [{ id := 1, title := "Dune", author := "Frank Herbert", description := none,
           year := some 1965, coverImageUrl := none, userId := 1 }] = (Except.ok r, 1) ∧
      r.pagination.currentPage = 1 ∧
      r.pagination.itemsPerPage = 10 ∧
      r.pagination.totalItems = ((1 : Nat) : Int) ∧
      r.pagination.totalPages = ((1 ⌈/⌉ 10 : Nat) : Int) ∧
      (((1 : Nat) : Int) ≤ r.pagination.totalPages * 10) ∧
      (∀ m : Nat, 1 ≤ m * 10 → r.pagination.totalPages ≤ (m : Int)) ∧
      r.data.length ≤ 10 ∧
      r.pagination.hasNextPage =
        decide (r.pagination.currentPage < r.pagination.totalPages) ∧
      r.pagination.hasPreviousPage = decide (1 < r.pagination.currentPage)) := by
  refine ⟨by decide, by decide, by decide, ?_⟩
  exact getPaginated_valid_contract
    { page := 1, limit := 10, sortBy := none, sortOrder := none } _
    (by decide) (by decide) (by decide)

/-- C2: for every pagination request with page < 1 or limit < 1 or limit > 100,
getPaginated fails before performing any storage access — the storage-call
count is zero, the failure is the wrapped validation error for the page or
limit bound, and the outcome is independent of the store contents. -/
theorem getPaginated_invalid_rejected {α : Type} (opts : PaginationOptions α)
    (store : List α)
    (h : opts.page < 1 ∨ opts.limit < 1 ∨ 100 < opts.limit) :
    (getPaginated opts store).2 = 0 ∧
    (∃ e : JsError, (getPaginated opts store).1 = Except.error e ∧
      (e = handleError "getPaginated" (jsNewError "Page must be greater than 0") ∨
       e = handleError "getPaginated" (jsNewError "Limit must be between 1 and 100"))) ∧
    (∀ store2 : List α, getPaginated opts store = getPaginated opts store2) := by
  by_cases hp : opts.page < 1
  · rw [getPaginated, if_pos hp]
    exact ⟨rfl, ⟨_, rfl, Or.inl rfl⟩, fun store2 => by rw [getPaginated, if_pos hp]⟩
  · have hlim : opts.limit < 1 ∨ opts.limit > 100 := by omega
    rw [getPaginated, if_neg hp, if_pos hlim]
    exact ⟨rfl, ⟨_, rfl, Or.inr rfl⟩,
      fun store2 => by rw [getPaginated, if_neg hp, if_pos hlim]⟩

/-- A page-0 pagination request, used as concrete invalid input. -/
def pageZeroOpts : PaginationOptions Book :=
  { page := 0, limit := 10, sortBy := none, sortOrder := none }

/-- A one-row book store used as concrete input. -/
def oneBookStore : List Book :=
  [{ id := 1, title := "Dune", author := "Frank Herbert", description := none,
     year := some 1965, coverImageUrl := none, userId := 1 }]

/-- Witness for C2 at page 0, limit 10 over a one-row store. -/
theorem getPaginated_invalid_rejected_witness :
    (pageZeroOpts.page < 1 ∨ pageZeroOpts.limit < 1 ∨ 100 < pageZeroOpts.limit) ∧
    ((getPaginated pageZeroOpts oneBookStore).2 = 0 ∧
    (∃ e : JsError, (getPaginated pageZeroOpts oneBookStore).1 = Except.error e ∧
      (e = handleError "getPaginated" (jsNewError "Page must be greater than 0") ∨
       e = handleError "getPaginated" (jsNewError "Limit must be between 1 and 100"))) ∧
    (∀ store2 : List Book,
      getPaginated pageZeroOpts oneBookStore = getPaginated pageZeroOpts store2)) :=
  ⟨Or.inl (by decide),
    getPaginated_invalid_rejected pageZeroOpts oneBookStore (Or.inl (by decide))⟩

/-- C3: findByIdAndUser filters by both id and owner in the one query it
issues: any returned book has exactly the requested id and owner, and when the
book with that id belongs to a different owner the result is absent. -/
theorem findByIdAndUser_owner_scoped (store : List Book) (bookId ownerB : Nat) :
    (∀ b : Book, findByIdAndUser store bookId ownerB = some b →
      b.id = bookId ∧ b.userId = ownerB) ∧
    ((∀ b ∈ store, b.id = bookId → b.userId ≠ ownerB) →
      findByIdAndUser store bookId ownerB = none) := by
  constructor
  · intro b hb
    have hp := List.find?_some hb
    simp only [Bool.and_eq_true, beq_iff_eq] at hp
    exact hp
  · intro hall
    rw [findByIdAndUser, List.find?_eq_none]
    intro x hx
    simp only [Bool.and_eq_true, beq_iff_eq, not_and]
    intro hid
    exact hall x hx hid

/-- A second owner's book sharing id-lookup scenarios: owner 1 holds book 1. -/
def ownerOneBook : Book :=
  { id := 1, title := "Dune", author := "Frank Herbert", description := none,
    year := some 1965, coverImageUrl := none, userId := 1 }

/-- Witness for C3: looking up owner 1's book 1 as owner 2 yields none. -/
theorem findByIdAndUser_owner_scoped_witness :
    (∀ b : Book, findByIdAndUser [ownerOneBook] 1 2 = some b →
      b.id = 1 ∧ b.userId = 2) ∧
    ((∀ b ∈ [ownerOneBook], b.id = 1 → b.userId ≠ 2) →
      findByIdAndUser [ownerOneBook] 1 2 = none) :=
  findByIdAndUser_owner_scoped [ownerOneBook] 1 2

/-- Members of the ordered rows are members of the underlying store. -/
theorem mem_applyOrder {α : Type} (key : Option (α → Int)) (ord : Option SortOrder)
    (rows : List α) (b : α) (hb : b ∈ applyOrder key ord rows) : b ∈ rows := by
  cases key with
  | none => exact hb
  | some k =>
    cases h : ord.getD SortOrder.asc <;>
      simp only [applyOrder, h, List.mem_mergeSort] at hb <;> exact hb

/-- Every row in the data of a successful getPaginated call comes from the
store the call was given. -/
theorem getPaginated_data_subset {α : Type} (opts : PaginationOptions α)
    (store : List α) (r : PaginatedResult α)
    (h : (getPaginated opts store).1 = Except.ok r) :
    ∀ b ∈ r.data, b ∈ store := by
  by_cases hp : opts.page < 1
  · rw [getPaginated, if_pos hp] at h
    cases h
  · by_cases hl : opts.limit < 1 ∨ opts.limit > 100
    · rw [getPaginated, if_neg hp, if_pos hl] at h
      cases h
    · rw [getPaginated, if_neg hp, if_neg hl] at h
      simp only [findAndCount] at h
      cases h
      intro b hb
      exact mem_applyOrder _ _ _ b
        (List.drop_subset _ _ (List.take_subset _ _ hb))

/-- C9 counterexample: with sortBy absent, getPaginated does not sort the page
ascending on the primary key — over a store holding ids [2, 1] the returned
page keeps ids [2, 1], which is not ascending. -/
theorem getPaginated_default_sort_counterexample :
    (match (getPaginated
        ({ page := 1, limit := 10, sortBy := none, sortOrder := none } :
          PaginationOptions Book)
        [{ id := 2, title := "B", author := "X", description := none,
           year := none, coverImageUrl := none, userId := 1 },
         { id := 1, title := "A", author := "Y", description := none,
           year := none, coverImageUrl := none, userId := 1 }]).1 with
     | Except.ok r => r.data.map Book.id
     | Except.error _ => []) = [2, 1] ∧
    ¬ List.Sorted (· ≤ ·) [2, 1] := by
  constructor
  · rfl
  · decide

/-- C9 amended: when sortBy is absent (and the request is valid), getPaginated
applies no ordering at all — the returned page is the raw offset/limit window
of the store in its underlying order. -/
theorem getPaginated_no_sortBy_keeps_store_order {α : Type}
    (opts : PaginationOptions α) (store : List α)
    (hsort : opts.sortBy = none) (hp : 1 ≤ opts.page) (hl1 : 1 ≤ opts.limit)
    (hl2 : opts.limit ≤ 100) :
    ∃ r : PaginatedResult α,
      getPaginated opts store = (Except.ok r, 1) ∧
      r.data = (store.drop ((opts.page - 1) * opts.limit).toNat).take opts.limit.toNat := by
  have hpage : ¬ opts.page < 1 := by omega
  have hlim : ¬ (opts.limit < 1 ∨ opts.limit > 100) := by omega
  simp only [getPaginated, findAndCount, applyOrder, hsort, if_neg hpage, if_neg hlim]
  exact ⟨_, rfl, rfl⟩

/-- Witness for the amended C9 at page 1, limit 10 over a one-row store. -/
theorem getPaginated_no_sortBy_keeps_store_order_witness :
    (({ page := 1, limit := 10, sortBy := none, sortOrder := none } :
        PaginationOptions Book).sortBy = none) ∧
    (∃ r : PaginatedResult Book,
      getPaginated
        ({ page := 1, limit := 10, sortBy := none, sortOrder := none } :
          PaginationOptions Book) oneBookStore = (Except.ok r, 1) ∧
      r.data = (oneBookStore.drop ((1 - 1) * 10 : Int).toNat).take (10 : Int).toNat) :=
  ⟨rfl, getPaginated_no_sortBy_keeps_store_order _ oneBookStore rfl
    (by decide) (by decide) (by decide)⟩

/-- Owner 1's copy of The Great Gatsby. -/
def gatsbyOwner1 : Book :=
  { id := 1, title := "The Great Gatsby", author := "F. Scott Fitzgerald",
    description := none, year := some 1925, coverImageUrl := none, userId := 1 }

/-- Owner 2's copy of The Great Gatsby. -/
def gatsbyOwner2 : Book :=
  { id := 2, title := "The Great Gatsby", author := "F. Scott Fitzgerald",
    description := none, year := some 1925, coverImageUrl := none, userId := 2 }

/-- C7 counterexample: the scoping layer exposes searchByTitle, which takes no
requesting owner at all and returns matching books of every tenant — here
books of two different owners at once, so any requesting tenant receives
another tenant's resource. -/
theorem searchByTitle_cross_tenant_counterexample :
    searchByTitle [gatsbyOwner1, gatsbyOwner2] "gat" = [gatsbyOwner1, gatsbyOwner2] ∧
    gatsbyOwner1.userId = 1 ∧ gatsbyOwner2.userId = 2 := by
  refine ⟨?_, rfl, rfl⟩
  rfl

/-- C7 amended: the ForUser operations of the scoping layer
(searchByTitleForUser, findByAuthorForUser, findByIdAndUser,
getPaginatedByUser) are filtered by ownerId and never return another tenant's
book; the unscoped searchByTitle / searchByAuthor / findByAuthor the service
also exposes carry no such guarantee. -/
theorem scoped_reads_owner_filtered (store : List Book) (userId : Nat)
    (term author : String) (bookId : Nat) (opts : PaginationOptions Book) :
    (∀ b ∈ searchByTitleForUser store userId term, b.userId = userId) ∧
    (∀ b ∈ findByAuthorForUser store userId author, b.userId = userId) ∧
    (∀ b : Book, findByIdAndUser store bookId userId = some b → b.userId = userId) ∧
    (∀ r : PaginatedResult Book,
      (getPaginatedByUser store userId opts).1 = Except.ok r →
      ∀ b ∈ r.data, b.userId = userId) := by
  refine ⟨?_, ?_, ?_, ?_⟩
  · intro b hb
    have hp := List.of_mem_filter hb
    simp only [Bool.and_eq_true, beq_iff_eq] at hp
    exact hp.1
  · intro b hb
    have hp := List.of_mem_filter hb
    simp only [Bool.and_eq_true, beq_iff_eq] at hp
    exact hp.1
  · intro b hb
    have hp := List.find?_some hb
    simp only [Bool.and_eq_true, beq_iff_eq] at hp
    exact hp.2
  · intro r hr b hb
    have hmem := getPaginated_data_subset opts _ r hr b hb
    have hp := List.of_mem_filter hmem
    simpa only [beq_iff_eq] using hp

/-- Witness for the amended C7 over a two-owner store, requesting as owner 1. -/
theorem scoped_reads_owner_filtered_witness :
    (∀ b ∈ searchByTitleForUser [gatsbyOwner1, gatsbyOwner2] 1 "gat", b.userId = 1) ∧
    (∀ b ∈ findByAuthorForUser [gatsbyOwner1, gatsbyOwner2] 1 "fitz", b.userId = 1) ∧
    (∀ b : Book,
      findByIdAndUser [gatsbyOwner1, gatsbyOwner2] 2 1 = some b → b.userId = 1) ∧
    (∀ r : PaginatedResult Book,
      (getPaginatedByUser [gatsbyOwner1, gatsbyOwner2] 1
        { page := 1, limit := 10, sortBy := none, sortOrder := none }).1 =
          Except.ok r →
      ∀ b ∈ r.data, b.userId = 1) :=
  scoped_reads_owner_filtered [gatsbyOwner1, gatsbyOwner2] 1 "gat" "fitz" 2
    { page := 1, limit := 10, sortBy := none, sortOrder := none }

/-- A partial update touches only the columns present in the patch and never
the id or owner column. -/
theorem booksUpdate_frame (store : List Book) (bookId : Nat) (p : BookPatch) :
    List.Forall₂ (fun b b2 =>
      b2.id = b.id ∧ b2.userId = b.userId ∧
      (p.title = none → b2.title = b.title) ∧
      (p.author = none → b2.author = b.author) ∧
      (p.description = none → b2.description = b.description) ∧
      (p.year = none → b2.year = b.year) ∧
      (p.coverImageUrl = none → b2.coverImageUrl = b.coverImageUrl))
      store (booksUpdate store bookId p) := by
  rw [booksUpdate, List.forall₂_map_right_iff]
  refine List.forall₂_same.2 (fun b _ => ?_)
  by_cases hid : (b.id == bookId) = true
  · simp only [hid, if_true]
    refine ⟨rfl, rfl, ?_, ?_, ?_, ?_, ?_⟩ <;> intro h <;> simp [applyPatch, h]
  · simp only [Bool.not_eq_true] at hid
    simp [hid]

/-- C8: the update path never alters ownership — the outcome is identical
whether or not the payload smuggles a userId (the controller strips it), and
row for row the store after updateBook keeps every id and userId, as well as
every column the payload does not name. -/
theorem updateBook_owner_immutable (store : List Book) (userId bookId : Nat)
    (dto : UpdateBookDto) :
    updateBook store userId bookId dto =
      updateBook store userId bookId { dto with userId := none } ∧
    List.Forall₂ (fun b b2 =>
      b2.id = b.id ∧ b2.userId = b.userId ∧
      (dto.title = none → b2.title = b.title) ∧
      (dto.author = none → b2.author = b.author) ∧
      (dto.description = none → b2.description = b.description) ∧
      (dto.year = none → b2.year = b.year) ∧
      (dto.coverImageUrl = none → b2.coverImageUrl = b.coverImageUrl))
      store (updateBook store userId bookId dto).2 := by
  have hrefl : List.Forall₂ (fun b b2 =>
      b2.id = b.id ∧ b2.userId = b.userId ∧
      (dto.title = none → b2.title = b.title) ∧
      (dto.author = none → b2.author = b.author) ∧
      (dto.description = none → b2.description = b.description) ∧
      (dto.year = none → b2.year = b.year) ∧
      (dto.coverImageUrl = none → b2.coverImageUrl = b.coverImageUrl))
      store store :=
    List.forall₂_same.2 (fun b _ =>
      ⟨rfl, rfl, fun _ => rfl, fun _ => rfl, fun _ => rfl, fun _ => rfl, fun _ => rfl⟩)
  constructor
  · rfl
  · rw [updateBook]
    cases hfind : findByIdAndUser store bookId userId with
    | none => exact hrefl
    | some existing =>
      dsimp only
      cases htc : (match dto.title with
        | some t => t != existing.title && titleExistsForUser store userId t
        | none => false) with
      | true =>
        simp only [htc, if_true]
        exact hrefl
      | false =>
        simp only [htc, Bool.false_eq_true, if_false]
        exact booksUpdate_frame store bookId (stripUserId dto)

/-- JS String.prototype.trim over the character list: whitespace removed from
both ends. Register and login never call it; it is used to state what the
spec asked for. -/
def strTrim (s : String) : String :=
  ⟨((s.data.dropWhile Char.isWhitespace).reverse.dropWhile Char.isWhitespace).reverse⟩

/-- C6 counterexample: registering with the raw email "A@B.COM " (trailing
space) stores and returns "a@b.com " — lowercased but NOT trimmed, differing
from the lowercased-and-trimmed form "a@b.com" the claim requires. -/
theorem register_does_not_trim_counterexample :
    (match register (fun p => String.append "h:" p) (fun _ _ => "t") []
        { email := "A@B.COM ", password := "Passw0rd1" } with
     | Except.ok (r, _) => r.user.email
     | Except.error _ => "") = "a@b.com " ∧
    strTrim (strLower "A@B.COM ") = "a@b.com" ∧
    "a@b.com " ≠ "a@b.com" := by
  refine ⟨by decide, by decide, by decide⟩

/-- C6 amended: register and login normalize the email to lowercase only (no
trimming) before the existence check, the lookup and the persistence: raw
emails with the same lowercasing behave identically in both operations, a
successful registration stores and returns exactly the lowercased raw email,
and register followed by login with the same raw credential succeeds. -/
theorem register_login_lowercase_only
    (hash : String → String) (sign : Nat → String → String)
    (verify : String → String → Bool)
    (store stInsert : List UserRow) (e1 e2 pwd : String)
    (hlow : strLower e1 = strLower e2) :
    registerRaced hash sign store stInsert { email := e1, password := pwd } =
      registerRaced hash sign store stInsert { email := e2, password := pwd } ∧
    login verify sign store { email := e1, password := pwd } =
      login verify sign store { email := e2, password := pwd } ∧
    (∀ r st2, register hash sign store { email := e1, password := pwd } =
        Except.ok (r, st2) → r.user.email = strLower e1) ∧
    (usersExists store (strLower e1) = false →
      verify pwd (hash pwd) = true →
      ∃ r st2,
        register hash sign store { email := e1, password := pwd } =
          Except.ok (r, st2) ∧
        r.user.email = strLower e1 ∧
        login verify sign st2 { email := e1, password := pwd } = Except.ok r) := by
  have hnone : usersExists store (strLower e1) = false →
      ∀ x ∈ store, (x.email == strLower e1) = false := by
    intro hex x hx
    rw [usersExists] at hex
    by_contra hne
    have hpx : (x.email == strLower e1) = true := by
      cases hpe : (x.email == strLower e1) with
      | true => rfl
      | false => exact absurd hpe hne
    have hmem : x ∈ store.filter (fun u => u.email == strLower e1) :=
      List.mem_filter.2 ⟨hx, hpx⟩
    have hlen : 0 < (store.filter (fun u => u.email == strLower e1)).length :=
      List.length_pos.2 (List.ne_nil_of_mem hmem)
    simp [hlen] at hex
  refine ⟨?_, ?_, ?_, ?_⟩
  · simp only [registerRaced, hlow]
  · simp only [login, hlow]
  · intro r st2 hr
    rw [register, registerRaced] at hr
    cases hex : usersExists store (strLower e1) with
    | true =>
      simp only [hex, if_true] at hr
      cases hr
    | false =>
      simp only [hex, Bool.false_eq_true, if_false] at hr
      rw [baseCreateUser, usersSave] at hr
      cases hany : store.any (fun x => x.email == strLower e1) with
      | true => simp [hany, handleError, jsNewError] at hr
      | false =>
        simp only [hany, Bool.false_eq_true, if_false] at hr
        cases hr
        rfl
  · intro hex hverify
    have hany : store.any (fun x => x.email == strLower e1) = false := by
      rw [List.any_eq_false]
      intro x hx
      simp [hnone hex x hx]
    refine ⟨{ user := { id := nextUserId store, email := strLower e1 },
              accessToken := sign (nextUserId store) (strLower e1) },
            store ++ [{ id := nextUserId store, email := strLower e1,
                        password := hash pwd }], ?_, rfl, ?_⟩
    · rw [register, registerRaced]
      simp only [hex, Bool.false_eq_true, if_false]
      rw [baseCreateUser, usersSave]
      simp only [hany, Bool.false_eq_true, if_false]
    · rw [login]
      have hfilter : (store ++
          [({ id := nextUserId store, email := strLower e1, password := hash pwd } :
            UserRow)]).filter (fun u => u.email == strLower e1) =
          [({ id := nextUserId store, email := strLower e1, password := hash pwd } :
            UserRow)] := by
        rw [List.filter_append]
        have h1 : store.filter (fun u => u.email == strLower e1) = [] := by
          rw [List.filter_eq_nil_iff]
          intro x hx
          simp [hnone hex x hx]
        rw [h1]
        simp
      have hfind : (store ++
          [({ id := nextUserId store, email := strLower e1, password := hash pwd } :
            UserRow)]).find? (fun u => u.email == strLower e1) =
          some ({ id := nextUserId store, email := strLower e1, password := hash pwd } :
            UserRow) := by
        rw [List.find?_append]
        have h2 : store.find? (fun u => u.email == strLower e1) = none := by
          rw [List.find?_eq_none]
          intro x hx
          simp [hnone hex x hx]
        rw [h2]
        simp
      simp only [hfilter, hfind, List.isEmpty_cons, Bool.false_eq_true, if_false]
      simp [hverify]

/-- Witness for the amended C6: concrete collaborators, the empty store, and
the case-variant raw emails "A@B.COM" and "a@b.com". -/
theorem register_login_lowercase_only_witness :
    strLower "A@B.COM" = strLower "a@b.com" ∧
    (registerRaced (fun p => String.append "h:" p) (fun _ e => e) [] []
        { email := "A@B.COM", password := "Passw0rd1" } =
      registerRaced (fun p => String.append "h:" p) (fun _ e => e) [] []
        { email := "a@b.com", password := "Passw0rd1" } ∧
    login (fun p h => p == String.drop h 2) (fun _ e => e) []
        { email := "A@B.COM", password := "Passw0rd1" } =
      login (fun p h => p == String.drop h 2) (fun _ e => e) []
        { email := "a@b.com", password := "Passw0rd1" } ∧
    (∀ r st2,
      register (fun p => String.append "h:" p) (fun _ e => e) []
          { email := "A@B.COM", password := "Passw0rd1" } = Except.ok (r, st2) →
      r.user.email = strLower "A@B.COM") ∧
    (usersExists [] (strLower "A@B.COM") = false →
      (fun (p h : String) => p == String.drop h 2) "Passw0rd1"
        ((fun p => String.append "h:" p) "Passw0rd1") = true →
      ∃ r st2,
        register (fun p => String.append "h:" p) (fun _ e => e) []
            { email := "A@B.COM", password := "Passw0rd1" } = Except.ok (r, st2) ∧
        r.user.email = strLower "A@B.COM" ∧
        login (fun p h => p == String.drop h 2) (fun _ e => e) st2
            { email := "A@B.COM", password := "Passw0rd1" } = Except.ok r)) :=
  ⟨by decide,
    register_login_lowercase_only (fun p => String.append "h:" p) (fun _ e => e)
      (fun p h => p == String.drop h 2) [] [] "A@B.COM" "a@b.com" "Passw0rd1"
      (by decide)⟩

/-- The row a concurrent registration wrote between the exists pre-check and
save: the store at check time was empty, the store at insert time holds it. -/
def racedUserRow : UserRow :=
  { id := 1, email := "x@y.com", password := "h" }

/-- C5: at the racing input — x@y.com absent at the exists pre-check but
present at insert time — the unique violation the store raises is NOT
translated to ConflictException: BaseService.create re-threw it through
handleError as a plain Error without the code field, so the catch in register
sees no 23505 and answers the generic BadRequestException instead. -/
theorem register_insert_race_yields_badRequest :
    registerRaced (fun p => String.append "h:" p) (fun _ _ => "t") [] [racedUserRow]
      { email := "X@Y.COM", password := "Passw0rd1" } =
      Except.error (AuthError.badRequest "Failed to create user") ∧
    usersSave [racedUserRow]
      { id := nextUserId [racedUserRow], email := strLower "X@Y.COM",
        password := String.append "h:" "Passw0rd1" } =
      Except.error (pgUniqueViolation "UQ_users_email") ∧
    AuthError.badRequest "Failed to create user" ≠
      AuthError.conflict "User with this email already exists" := by
  refine ⟨rfl, rfl, by decide⟩

/-- The book a concurrent create wrote between the titleExistsForUser
pre-check and save: owner 7 already holds a book titled Dune at insert time. -/
def racedBookRow : Book :=
  { id := 1, title := "Dune", author := "Frank Herbert", description := none,
    year := none, coverImageUrl := none, userId := 7 }

/-- The create payload for owner 7 duplicating the raced title. -/
def duneDto : CreateBookDto :=
  { title := "Dune", author := "Frank Herbert", description := none,
    year := none, userId := none }

/-- C4: the pre-check path does surface a 409 naming the title, and the same
title under a different owner is inserted fine; but at the racing input — the
duplicate (owner, title) pair absent at pre-check time yet present at insert
time — the storage constraint violation surfaces as a 500 whose message is the
handleError wrapping, not as the 409 conflict: handleError discarded the
code/constraint fields the controller's catch inspects. -/
theorem createBook_constraint_race_yields_500 :
    createBook [racedBookRow] [racedBookRow] 7 duneDto =
      Except.error ⟨409, duplicateTitleMessage "Dune"⟩ ∧
    createBook [racedBookRow] [racedBookRow] 8 duneDto =
      Except.ok
        ({ id := 2, title := "Dune", author := "Frank Herbert", description := none,
           year := none, coverImageUrl := none, userId := 8 },
         [racedBookRow,
          { id := 2, title := "Dune", author := "Frank Herbert", description := none,
            year := none, coverImageUrl := none, userId := 8 }]) ∧
    createBook [] [racedBookRow] 7 duneDto =
      Except.error ⟨500, (handleError "create"
        (pgUniqueViolation "UQ_books_userId_title")).message⟩ ∧
    (500 : Nat) ≠ 409 := by
  refine ⟨rfl, rfl, rfl, by decide⟩

/-- C10: handleError always propagates a plain Error with no code and no
constraint field, whose message (for Error-instance failures) is the
Service-error prefix plus the original message; two storage failures agreeing
on message and Error-ness — say a 23505 unique violation and any other
failure — wrap to identical propagated errors, and every error escaping
BaseService.create carries no structured fields for callers to inspect. -/
theorem handleError_discards_structure (operation : String) (e e2 : JsError)
    (hmsg : e2.message = e.message) (hisE : e2.isError = e.isError) :
    (handleError operation e).code = none ∧
    (handleError operation e).constraintName = none ∧
    (e.isError = true →
      (handleError operation e).message =
        "Service error in " ++ operation ++ ": " ++ e.message) ∧
    handleError operation e2 = handleError operation e ∧
    (∀ store b err, baseCreateBook store b = Except.error err →
      err.code = none ∧ err.constraintName = none) := by
  refine ⟨rfl, rfl, ?_, ?_, ?_⟩
  · intro h
    simp [handleError, jsNewError, h]
  · rw [handleError, handleError, hmsg, hisE]
  · intro store b err herr
    rw [baseCreateBook] at herr
    cases hs : booksSave store b with
    | ok r => rw [hs] at herr; cases herr
    | error e3 =>
      rw [hs] at herr
      cases herr
      exact ⟨rfl, rfl⟩

/-- Witness for C10: the concrete unique-violation error and a plain error
with the same message wrap to the same propagated error in the create
operation. -/
theorem handleError_discards_structure_witness :
    (jsNewError (pgUniqueViolation "UQ_users_email").message).message =
      (pgUniqueViolation "UQ_users_email").message ∧
    (jsNewError (pgUniqueViolation "UQ_users_email").message).isError =
      (pgUniqueViolation "UQ_users_email").isError ∧
    ((handleError "create" (pgUniqueViolation "UQ_users_email")).code = none ∧
    (handleError "create" (pgUniqueViolation "UQ_users_email")).constraintName = none ∧
    ((pgUniqueViolation "UQ_users_email").isError = true →
      (handleError "create" (pgUniqueViolation "UQ_users_email")).message =
        "Service error in " ++ "create" ++ ": " ++
          (pgUniqueViolation "UQ_users_email").message) ∧
    handleError "create" (jsNewError (pgUniqueViolation "UQ_users_email").message) =
      handleError "create" (pgUniqueViolation "UQ_users_email") ∧
    (∀ store b err, baseCreateBook store b = Except.error err →
      err.code = none ∧ err.constraintName = none)) :=
  ⟨rfl, rfl,
    handleError_discards_structure "create" (pgUniqueViolation "UQ_users_email")
      (jsNewError (pgUniqueViolation "UQ_users_email").message) rfl rfl⟩

end BooksApi
